import Mathlib

/-
Verification of the nanobrowser-mcp-host process-lifecycle coordinator,
message-correlation layer and run_task capability.

The embedding follows the TypeScript sources:
  - index.ts (the lifecycle module: pid-file management, duplicate-instance
    check, native-messaging handler registrations, MCP server auto-start,
    signal and fatal-error handlers).  Two revisions of this file appear in
    the repository snapshot; the one that registers onConnectionClosed and
    tolerates EADDRINUSE is taken as current, because the integration test
    bun-binary-execution.test.ts requires its behaviour (exit status 0 after
    stdin closes).  The older revision is embedded too, as startCatchOpsLegacy.
  - tools/run-task.ts (RunTaskTool.execute); again the revision with the
    try/catch re-encoding matches the integration test expectations and is
    taken as current.
  - messaging.ts is absent from the snapshot, so the MessageRouter pending
    call table is modelled from the specification (see RouterState below).
-/

namespace NanobrowserMcpHost

/-- The externally visible state of one host process.
`marker` models the pid file `~/.nanobrowser/mcp-host.pid`:
`none` means the file is absent; `some none` means it is present but its
content does not parse as a number (parseInt gives NaN); `some (some pid)`
means it records `pid`.  `gatewayRunning` is McpServerManager.isServerRunning,
`messagingUp` records that the NativeMessaging channel object is operating,
and `exited` is the status passed to process.exit, once called. -/
structure HostState where
  marker : Option (Option Nat)
  gatewayRunning : Bool
  messagingUp : Bool
  exited : Option Nat
deriving DecidableEq, Repr

/-- Atomic effects performed by the handler bodies in index.ts. -/
inductive HOp
  | stopGatewayIfRunning
  | removeMarker
  | exitWith (code : Nat)
  | sendErrorMessage
deriving DecidableEq, Repr

/-- Effect of one operation.  After process.exit has run, no further code of
this process executes, so every operation is dead once `exited` is set. -/
def applyOp (s : HostState) (op : HOp) : HostState :=
  if s.exited.isSome then s
  else
    match op with
    | .stopGatewayIfRunning => { s with gatewayRunning := false }
    | .removeMarker => { s with marker := none }
    | .exitWith c => { s with exited := some c }
    | .sendErrorMessage => s

/-- Run a handler body, i.e. its list of operations in order. -/
def runHandler (ops : List HOp) (s : HostState) : HostState :=
  ops.foldl applyOp s

/-- Body of the messaging.onConnectionClosed callback (index.ts):
shut the MCP server down if running, remove the pid file, process.exit(0). -/
def onConnectionClosedOps : List HOp :=
  [.stopGatewayIfRunning, .removeMarker, .exitWith 0]

/-- Body of the SIGINT handler (index.ts): shutdown if running (not awaited),
remove the pid file, process.exit(0). -/
def sigintOps : List HOp :=
  [.stopGatewayIfRunning, .removeMarker, .exitWith 0]

/-- Body of the SIGTERM handler (index.ts): await shutdown if running,
remove the pid file, process.exit(0). -/
def sigtermOps : List HOp :=
  [.stopGatewayIfRunning, .removeMarker, .exitWith 0]

/-- Body of the registerHandler shutdown callback (index.ts): it only shuts
the MCP server down if it is running; it neither removes the pid file nor
calls process.exit. -/
def shutdownCommandOps : List HOp :=
  [.stopGatewayIfRunning]

/-- Body of the uncaughtException handler (index.ts): send an error message
on the native channel, remove the pid file, process.exit(1).  It never calls
mcpServerManager.shutdown. -/
def uncaughtExceptionOps : List HOp :=
  [.sendErrorMessage, .removeMarker, .exitWith 1]

/-- Body of the unhandledRejection handler (index.ts): remove the pid file,
process.exit(1).  It never calls mcpServerManager.shutdown. -/
def unhandledRejectionOps : List HOp :=
  [.removeMarker, .exitWith 1]

/-- Cause of a listener bind failure, as classified by the catch in
index.ts via error.code. -/
inductive BindErrorCode
  | addrInUse
  | other
deriving DecidableEq, Repr

/-- Body of the mcpServerManager.start().catch handler in the current
index.ts revision: EADDRINUSE only logs a warning and the host continues;
any other error removes the pid file and exits with status 1. -/
def startCatchOps (e : BindErrorCode) : List HOp :=
  match e with
  | .addrInUse => []
  | .other => [.removeMarker, .exitWith 1]

/-- Body of the mcpServerManager.start().catch handler in the older index.ts
revision kept in the snapshot: it logs, then calls process.exit(1)
unconditionally, for EADDRINUSE as well.  It is recorded here to document the
divergence between the two revisions; the current revision is startCatchOps. -/
def startCatchOpsLegacy (e : BindErrorCode) : List HOp :=
  match e with
  | .addrInUse => [.exitWith 1]
  | .other => [.exitWith 1]

/-- removePidFile (index.ts): unlink the pid file if it exists, so the file
is absent afterwards in every case. -/
def removePidFile (_m : Option (Option Nat)) : Option (Option Nat) :=
  none

/-- checkExistingInstance (index.ts).  `alive pid` models that
process.kill(pid, 0) does not throw.  Returns the boolean result together
with the marker-file state it leaves behind: absent file gives false; an
unparseable pid removes the stale file and gives false; a parseable pid is
probed, a live one gives true with the file untouched, a dead one removes
the stale file and gives false. -/
def checkExistingInstance (alive : Nat → Bool) (m : Option (Option Nat)) :
    Bool × Option (Option Nat) :=
  match m with
  | none => (false, none)
  | some none => (false, removePidFile (some none))
  | some (some pid) =>
      if alive pid then (true, some (some pid))
      else (false, removePidFile (some (some pid)))

/-- createPidFile (index.ts): write the current pid; any failure is caught
and only logged, leaving the file state unchanged. -/
def createPidFile (selfPid : Nat) (writeOk : Bool) (m : Option (Option Nat)) :
    Option (Option Nat) :=
  if writeOk then some (some selfPid) else m

/-- Outcome of the top-level startup prologue of index.ts, up to the point
where the gateway start has been attempted and the ready message is sent. -/
structure StartupOutcome where
  marker : Option (Option Nat)
  exited : Option Nat
  pidFileWritten : Bool
  messagingUp : Bool
  gatewayStartAttempted : Bool
deriving DecidableEq, Repr

/-- The module-level startup sequence of index.ts: run
checkExistingInstance; on a duplicate, log and process.exit(1) before the
pid file is written, before NativeMessaging is constructed and before
mcpServerManager.start is called; otherwise write the pid file (a write
failure is caught and only logged) and proceed. -/
def startupPrologue (alive : Nat → Bool) (selfPid : Nat) (writeOk : Bool)
    (m0 : Option (Option Nat)) : StartupOutcome :=
  let r := checkExistingInstance alive m0
  if r.1 then
    { marker := r.2, exited := some 1, pidFileWritten := false,
      messagingUp := false, gatewayStartAttempted := false }
  else
    { marker := createPidFile selfPid writeOk r.2, exited := none,
      pidFileWritten := writeOk, messagingUp := true,
      gatewayStartAttempted := true }

/-- Modelled from the spec: messaging.ts (the MessageRouter with its
PendingCall table) is not in the snapshot.  Following the specification,
the router keeps a table of pending call ids; a matching response settles
and removes the entry, the deadline timer settles and removes it with a
Timeout error, and a frame for an id with no entry is dropped silently.
`pending` holds the ids of the outstanding calls (each rpcRequest
generates a fresh unique id) and `settled` records each settlement,
`true` for a matched response and `false` for a timeout. -/
structure RouterState where
  pending : List Nat
  settled : List (Nat × Bool)
deriving DecidableEq, Repr

/-- Events that can settle a pending call: a response frame arriving for an
id, or that id's deadline timer firing. -/
inductive RouterEvent
  | response (id : Nat)
  | timeout (id : Nat)
deriving DecidableEq, Repr

/-- Modelled from the spec: one router dispatch step.  A response for a
pending id resolves it and removes the entry; a response for an unknown id
(already settled and evicted, or never issued) is dropped without any state
change; a timer firing for a pending id rejects it with a Timeout error and
removes the entry; a timer for an absent id does nothing. -/
def routerStep (s : RouterState) (e : RouterEvent) : RouterState :=
  match e with
  | .response id =>
      if id ∈ s.pending then
        { pending := s.pending.erase id, settled := (id, true) :: s.settled }
      else s
  | .timeout id =>
      if id ∈ s.pending then
        { pending := s.pending.erase id, settled := (id, false) :: s.settled }
      else s

/-- Process a sequence of router events in arrival order. -/
def routerRun (s : RouterState) (es : List RouterEvent) : RouterState :=
  es.foldl routerStep s

/-- The ids settled so far, with multiplicity. -/
def settledIds (s : RouterState) : List Nat :=
  s.settled.map Prod.fst

/-- Record of one MessageRouter.rpcRequest issued by a capability. -/
structure RpcCallRecord where
  method : String
  task : String
  context : String
  timeoutMs : Nat
deriving DecidableEq, Repr

/-- The settled outcome of an rpcRequest future: resolved with a result, or
rejected with an error (timeout included). -/
inductive RpcOutcome
  | ok (v : String)
  | err (msg : String)
deriving DecidableEq, Repr

/-- What RunTaskTool.execute produces: a CallToolResult envelope whose text
is the success markdown, a CallToolResult envelope whose text is the error
markdown, or an exception propagating raw out of execute. -/
inductive ToolExecResult
  | envelopeSuccess (task v : String)
  | envelopeError (task msg : String)
  | thrown (msg : String)
deriving DecidableEq, Repr

/-- The timeout actually passed to rpcRequest: the JavaScript expression
args.timeout || 300000, so a missing value and the falsy 0 both give the
default 300000 ms. -/
def effectiveTimeout (t : Option Nat) : Nat :=
  match t with
  | some n => if n = 0 then 300000 else n
  | none => 300000

/-- RunTaskTool.execute (tools/run-task.ts, current revision).  A falsy
args.task (the empty string) throws before anything else.  Otherwise the
tool issues one messaging.rpcRequest with method run_task, the task, the
context defaulted to the empty string, and the effective timeout; the try
block turns a resolved outcome into the success envelope and the catch
block turns a rejection into the error envelope.  The second component
lists the rpcRequest calls issued. -/
def runTaskExecute (task : String) (ctx : Option String)
    (timeoutArg : Option Nat) (rpc : RpcOutcome) :
    ToolExecResult × List RpcCallRecord :=
  if task = "" then (.thrown "Task description is required", [])
  else
    let call : RpcCallRecord :=
      { method := "run_task", task := task, context := ctx.getD "",
        timeoutMs := effectiveTimeout timeoutArg }
    match rpc with
    | .ok v => (.envelopeSuccess task v, [call])
    | .err m => (.envelopeError task m, [call])

theorem settle_count (p t : List Nat) (j id : Nat) (hj : j ∈ p) :
    (p.erase j).count id + (j :: t).count id = p.count id + t.count id := by
  by_cases hij : id = j
  · subst hij
    have h1 : (p.erase id).count id = p.count id - 1 := List.count_erase_self id p
    have h2 : 1 ≤ p.count id := List.one_le_count_iff.mpr hj
    rw [h1, List.count_cons_self]
    omega
  · rw [List.count_erase_of_ne hij p, List.count_cons_of_ne hij]

theorem routerStep_count (s : RouterState) (e : RouterEvent) (id : Nat) :
    (routerStep s e).pending.count id + (settledIds (routerStep s e)).count id
      = s.pending.count id + (settledIds s).count id := by
  cases e with
  | response j =>
      by_cases hj : j ∈ s.pending
      · simpa [routerStep, hj, settledIds] using
          settle_count s.pending (settledIds s) j id hj
      · simp [routerStep, hj]
  | timeout j =>
      by_cases hj : j ∈ s.pending
      · simpa [routerStep, hj, settledIds] using
          settle_count s.pending (settledIds s) j id hj
      · simp [routerStep, hj]

theorem routerRun_count (s : RouterState) (es : List RouterEvent) (id : Nat) :
    (routerRun s es).pending.count id + (settledIds (routerRun s es)).count id
      = s.pending.count id + (settledIds s).count id := by
  induction es generalizing s with
  | nil => rfl
  | cons e es ih =>
      have h : routerRun s (e :: es) = routerRun (routerStep s e) es := rfl
      rw [h]
      exact (ih (routerStep s e)).trans (routerStep_count s e id)

theorem routerStep_not_pending (s : RouterState) (e : RouterEvent) (id : Nat)
    (h : id ∉ s.pending) : id ∉ (routerStep s e).pending := by
  cases e with
  | response j =>
      by_cases hj : j ∈ s.pending
      · simp only [routerStep, if_pos hj]
        exact fun hmem => h (List.mem_of_mem_erase hmem)
      · simpa [routerStep, hj] using h
  | timeout j =>
      by_cases hj : j ∈ s.pending
      · simp only [routerStep, if_pos hj]
        exact fun hmem => h (List.mem_of_mem_erase hmem)
      · simpa [routerStep, hj] using h

theorem routerRun_not_pending (s : RouterState) (es : List RouterEvent) (id : Nat)
    (h : id ∉ s.pending) : id ∉ (routerRun s es).pending := by
  induction es generalizing s with
  | nil => exact h
  | cons e es ih => exact ih (routerStep s e) (routerStep_not_pending s e id h)

theorem routerStep_nodup (s : RouterState) (e : RouterEvent)
    (h : s.pending.Nodup) : (routerStep s e).pending.Nodup := by
  cases e with
  | response j =>
      by_cases hj : j ∈ s.pending
      · simpa [routerStep, hj] using h.erase j
      · simpa [routerStep, hj] using h
  | timeout j =>
      by_cases hj : j ∈ s.pending
      · simpa [routerStep, hj] using h.erase j
      · simpa [routerStep, hj] using h

theorem routerRun_nodup (s : RouterState) (es : List RouterEvent)
    (h : s.pending.Nodup) : (routerRun s es).pending.Nodup := by
  induction es generalizing s with
  | nil => exact h
  | cons e es ih => exact ih (routerStep s e) (routerStep_nodup s e h)

theorem routerStep_timeout_not_pending (s : RouterState) (id : Nat)
    (h : s.pending.Nodup) :
    id ∉ (routerStep s (RouterEvent.timeout id)).pending := by
  by_cases hid : id ∈ s.pending
  · simp only [routerStep, if_pos hid]
    exact fun hmem => ((h.mem_erase_iff).1 hmem).1 rfl
  · simp [routerStep, hid]

theorem routerStep_drop (s : RouterState) (id : Nat) (h : id ∉ s.pending) :
    routerStep s (RouterEvent.response id) = s := by
  simp [routerStep, h]

/-- C1: in every run where the counterpart closes its end of the native
channel while the process is running (process.exit not yet called), the
onConnectionClosed callback stops the gateway, removes the marker file and
terminates the process with exit status 0, for every gateway state
(including while the listener is bound) and marker state. -/
theorem connectionClosed_full_termination (m : Option (Option Nat)) (g u : Bool) :
    runHandler onConnectionClosedOps ⟨m, g, u, none⟩ = ⟨none, false, u, some 0⟩ :=
  rfl

/-- C2: the bind-failure catch handler classifies by cause: an address
already in use error leaves the running host state untouched (native channel
up, no exit, gateway simply absent), while every other bind error removes
the marker file and exits with status 1. -/
theorem bind_failure_classified (m : Option (Option Nat)) (u : Bool) :
    runHandler (startCatchOps .addrInUse) ⟨m, false, u, none⟩ = ⟨m, false, u, none⟩ ∧
    runHandler (startCatchOps .other) ⟨m, false, u, none⟩ = ⟨none, false, u, some 1⟩ :=
  ⟨rfl, rfl⟩

/-- C3: when the marker file records a pid that is currently alive, startup
exits with the non-zero status 1, leaves the marker exactly as it was, and
acquires no resource: the pid file is not written, NativeMessaging is not
constructed and the gateway start is never attempted. -/
theorem duplicate_instance_refused (alive : Nat → Bool) (selfPid pid : Nat)
    (writeOk : Bool) (hAlive : alive pid = true) :
    startupPrologue alive selfPid writeOk (some (some pid)) =
      { marker := some (some pid), exited := some 1, pidFileWritten := false,
        messagingUp := false, gatewayStartAttempted := false } := by
  simp [startupPrologue, checkExistingInstance, hAlive]

theorem duplicate_instance_refused_witness :
    (fun _ : Nat => true) 1 = true ∧
    startupPrologue (fun _ => true) 2 true (some (some 1)) =
      { marker := some (some 1), exited := some 1, pidFileWritten := false,
        messagingUp := false, gatewayStartAttempted := false } :=
  ⟨rfl, duplicate_instance_refused (fun _ => true) 2 1 true rfl⟩

/-- C4: when the marker file records a pid with no live process, startup
removes the stale marker, writes a fresh marker holding its own pid, and
proceeds normally: no exit, messaging constructed, gateway start attempted. -/
theorem stale_marker_recovered (alive : Nat → Bool) (selfPid pid : Nat)
    (hDead : alive pid = false) :
    (checkExistingInstance alive (some (some pid))).2 = none ∧
    startupPrologue alive selfPid true (some (some pid)) =
      { marker := some (some selfPid), exited := none, pidFileWritten := true,
        messagingUp := true, gatewayStartAttempted := true } := by
  refine ⟨?_, ?_⟩
  · simp [checkExistingInstance, hDead, removePidFile]
  · simp [startupPrologue, checkExistingInstance, hDead, createPidFile,
      removePidFile]

theorem stale_marker_recovered_witness :
    (fun _ : Nat => false) 1 = false ∧
    ((checkExistingInstance (fun _ => false) (some (some 1))).2 = none ∧
      startupPrologue (fun _ => false) 2 true (some (some 1)) =
        { marker := some (some 2), exited := none, pidFileWritten := true,
          messagingUp := true, gatewayStartAttempted := true }) :=
  ⟨rfl, stale_marker_recovered (fun _ => false) 2 1 rfl⟩

/-- C5 counterexample: the explicit shutdown command received on the native
channel does not terminate the process.  From a running state with the
gateway bound and the marker recording pid 1234, the shutdown handler leaves
the process running (process.exit never called) and the marker file in
place; it only stops the gateway. -/
theorem shutdown_command_no_exit_cex :
    (runHandler shutdownCommandOps ⟨some (some 1234), true, true, none⟩).exited
        = none ∧
    (runHandler shutdownCommandOps ⟨some (some 1234), true, true, none⟩).marker
        = some (some 1234) :=
  ⟨rfl, rfl⟩

/-- C5 amended: SIGINT, SIGTERM and counterpart disconnect each stop the
gateway, remove the marker file and exit with status 0; the explicit
shutdown command only stops the gateway, leaving the marker in place and the
process running (its termination comes only from the counterpart
subsequently closing the channel). -/
theorem graceful_triggers_shutdown_sequence (m : Option (Option Nat)) (g u : Bool) :
    runHandler sigintOps ⟨m, g, u, none⟩ = ⟨none, false, u, some 0⟩ ∧
    runHandler sigtermOps ⟨m, g, u, none⟩ = ⟨none, false, u, some 0⟩ ∧
    runHandler onConnectionClosedOps ⟨m, g, u, none⟩ = ⟨none, false, u, some 0⟩ ∧
    runHandler shutdownCommandOps ⟨m, g, u, none⟩ = ⟨m, false, u, none⟩ :=
  ⟨rfl, rfl, rfl, rfl⟩

/-- C6 counterexample: with the gateway running and the marker recording pid
99, the uncaughtException handler exits with status 1 without ever stopping
the gateway: the handler body contains no gateway stop, and the gateway flag
is still set when the process exits.  The unhandledRejection handler
likewise contains no gateway stop. -/
theorem uncaught_error_no_gateway_stop_cex :
    runHandler uncaughtExceptionOps ⟨some (some 99), true, true, none⟩
        = ⟨none, true, true, some 1⟩ ∧
    HOp.stopGatewayIfRunning ∉ uncaughtExceptionOps ∧
    HOp.stopGatewayIfRunning ∉ unhandledRejectionOps :=
  ⟨rfl, by decide, by decide⟩

/-- C6 amended: on an uncaught exception or an unhandled promise rejection
the process removes the marker file and exits with status 1 — so the marker
never outlives the process — but it does not stop the gateway; the listener
is released only by process termination. -/
theorem fatal_error_cleanup_without_gateway_stop (m : Option (Option Nat))
    (g u : Bool) :
    runHandler uncaughtExceptionOps ⟨m, g, u, none⟩ = ⟨none, g, u, some 1⟩ ∧
    runHandler unhandledRejectionOps ⟨m, g, u, none⟩ = ⟨none, g, u, some 1⟩ :=
  ⟨rfl, rfl⟩

/-- C7 counterexample: there is no shutdown-state flag, and a trigger
arriving after shutdown has begun is not a no-op.  The connection-closed
handler begins from a running state with the gateway bound and the marker
recording pid 7, performs its first operation (stopping the gateway) and
suspends at its await; a SIGTERM trigger then runs its full shutdown path:
it changes the state, removes the marker and performs the process exit
itself. -/
theorem second_trigger_not_noop_cex :
    runHandler sigtermOps
        (applyOp ⟨some (some 7), true, true, none⟩ .stopGatewayIfRunning)
      ≠ applyOp ⟨some (some 7), true, true, none⟩ .stopGatewayIfRunning ∧
    (runHandler sigtermOps
        (applyOp ⟨some (some 7), true, true, none⟩ .stopGatewayIfRunning)).exited
      = some 0 ∧
    (runHandler sigtermOps
        (applyOp ⟨some (some 7), true, true, none⟩ .stopGatewayIfRunning)).marker
      = none :=
  ⟨by decide, rfl, rfl⟩

/-- C7 amended: mutual exclusion of shutdown triggers comes from process
termination alone, not from a flag: once some trigger has called
process.exit, every handler body is a no-op; before that point a second
trigger can still run its full shutdown path. -/
theorem triggers_after_exit_are_noops (m : Option (Option Nat)) (g u : Bool)
    (c : Nat) :
    runHandler onConnectionClosedOps ⟨m, g, u, some c⟩ = ⟨m, g, u, some c⟩ ∧
    runHandler sigintOps ⟨m, g, u, some c⟩ = ⟨m, g, u, some c⟩ ∧
    runHandler sigtermOps ⟨m, g, u, some c⟩ = ⟨m, g, u, some c⟩ ∧
    runHandler shutdownCommandOps ⟨m, g, u, some c⟩ = ⟨m, g, u, some c⟩ ∧
    runHandler uncaughtExceptionOps ⟨m, g, u, some c⟩ = ⟨m, g, u, some c⟩ ∧
    runHandler unhandledRejectionOps ⟨m, g, u, some c⟩ = ⟨m, g, u, some c⟩ :=
  ⟨rfl, rfl, rfl, rfl, rfl, rfl⟩

/-- C8: over any arrival order of response frames and timer firings in which
every outstanding call id eventually has its deadline timer fire, each
rpcRequest with a fresh unique id settles exactly once: its id leaves the
pending table and appears exactly once among the settlements.  Moreover a
response frame for an id with no pending entry (already settled and
evicted) is dropped with no state change at all, so it neither resurrects
the settled call nor affects any other pending call. -/
theorem rpcRequest_settles_exactly_once (ids : List Nat) (es : List RouterEvent)
    (hnd : ids.Nodup)
    (hto : ∀ id ∈ ids, RouterEvent.timeout id ∈ es) :
    (∀ id ∈ ids,
        id ∉ (routerRun ⟨ids, []⟩ es).pending ∧
        (settledIds (routerRun ⟨ids, []⟩ es)).count id = 1) ∧
    (∀ (s : RouterState) (id : Nat), id ∉ s.pending →
        routerStep s (RouterEvent.response id) = s) := by
  refine ⟨?_, fun s id h => routerStep_drop s id h⟩
  intro id hid
  obtain ⟨l, r, hes⟩ := List.append_of_mem (hto id hid)
  subst hes
  have heq : routerRun ⟨ids, []⟩ (l ++ RouterEvent.timeout id :: r)
      = routerRun (routerStep (routerRun ⟨ids, []⟩ l) (RouterEvent.timeout id)) r := by
    simp [routerRun, List.foldl_append]
  have hnodl : (routerRun ⟨ids, []⟩ l).pending.Nodup := routerRun_nodup _ l hnd
  have hstep := routerStep_timeout_not_pending (routerRun ⟨ids, []⟩ l) id hnodl
  have hfin : id ∉ (routerRun ⟨ids, []⟩ (l ++ RouterEvent.timeout id :: r)).pending := by
    rw [heq]
    exact routerRun_not_pending _ r id hstep
  refine ⟨hfin, ?_⟩
  have hcnt := routerRun_count ⟨ids, []⟩ (l ++ RouterEvent.timeout id :: r) id
  have h1 : ids.count id = 1 := List.count_eq_one_of_mem hnd hid
  have h0 : (routerRun ⟨ids, []⟩ (l ++ RouterEvent.timeout id :: r)).pending.count id = 0 :=
    List.count_eq_zero.mpr hfin
  have hz : (settledIds (⟨ids, []⟩ : RouterState)).count id = 0 := rfl
  rw [h0, h1, hz] at hcnt
  omega

theorem rpcRequest_settles_exactly_once_witness :
    (([1, 2] : List Nat).Nodup ∧
      ∀ id ∈ ([1, 2] : List Nat),
        RouterEvent.timeout id ∈
          [RouterEvent.response 1, RouterEvent.timeout 1, RouterEvent.timeout 2]) ∧
    ((∀ id ∈ ([1, 2] : List Nat),
        id ∉ (routerRun ⟨[1, 2], []⟩
          [RouterEvent.response 1, RouterEvent.timeout 1,
            RouterEvent.timeout 2]).pending ∧
        (settledIds (routerRun ⟨[1, 2], []⟩
          [RouterEvent.response 1, RouterEvent.timeout 1,
            RouterEvent.timeout 2])).count id = 1) ∧
      (∀ (s : RouterState) (id : Nat), id ∉ s.pending →
        routerStep s (RouterEvent.response id) = s)) :=
  ⟨⟨by decide, by decide⟩,
    rpcRequest_settles_exactly_once [1, 2]
      [RouterEvent.response 1, RouterEvent.timeout 1, RouterEvent.timeout 2]
      (by decide) (by decide)⟩

/-- C9 counterexample: a run_task invocation whose task argument is the
empty string (falsy in JavaScript) throws the validation error raw out of
execute and issues no rpcRequest at all, contradicting the claim that every
capability invocation issues exactly one rpcRequest and re-encodes every
outcome into the response envelope. -/
theorem run_task_empty_task_raw_throw_cex :
    runTaskExecute "" none none (RpcOutcome.ok "x")
      = (ToolExecResult.thrown "Task description is required", []) :=
  rfl

/-- C9 amended: every run_task invocation with a nonempty task issues
exactly one rpcRequest, carrying the capability timeout (the provided value,
with 0 and absence defaulting to 300000 ms), and re-encodes the settled
outcome — result or rejection — into the response envelope, never letting it
propagate raw; an invocation with an empty task instead throws a validation
error before any rpcRequest is issued. -/
theorem run_task_single_rpc_enveloped (task : String) (ctx : Option String)
    (ta : Option Nat) (rpc : RpcOutcome) (h : task ≠ "") :
    (runTaskExecute task ctx ta rpc).2
        = [{ method := "run_task", task := task, context := ctx.getD "",
             timeoutMs := effectiveTimeout ta }] ∧
    (runTaskExecute task ctx ta rpc).1
        = (match rpc with
           | .ok v => ToolExecResult.envelopeSuccess task v
           | .err msg => ToolExecResult.envelopeError task msg) ∧
    ∀ msg, (runTaskExecute task ctx ta rpc).1 ≠ ToolExecResult.thrown msg := by
  cases rpc <;> simp [runTaskExecute, h]

theorem run_task_single_rpc_enveloped_witness :
    ("click" : String) ≠ "" ∧
    ((runTaskExecute "click" none none (RpcOutcome.err "RPC request timeout")).2
        = [{ method := "run_task", task := "click", context := "",
             timeoutMs := 300000 }] ∧
      (runTaskExecute "click" none none (RpcOutcome.err "RPC request timeout")).1
        = ToolExecResult.envelopeError "click" "RPC request timeout" ∧
      ∀ msg,
        (runTaskExecute "click" none none (RpcOutcome.err "RPC request timeout")).1
          ≠ ToolExecResult.thrown msg) :=
  ⟨by decide, by
    have h := run_task_single_rpc_enveloped "click" none none
      (RpcOutcome.err "RPC request timeout") (by decide)
    simpa using h⟩

/-- C10: a failure to write the pid file at startup is caught and only
logged: with no marker on disk and the write failing, startup still
proceeds (no exit, messaging constructed, gateway start attempted) and the
instance runs with no marker on disk, so singleton enforcement is not
guaranteed. -/
theorem pid_write_failure_nonfatal (alive : Nat → Bool) (selfPid : Nat) :
    startupPrologue alive selfPid false none =
      { marker := none, exited := none, pidFileWritten := false,
        messagingUp := true, gatewayStartAttempted := true } :=
  rfl

end NanobrowserMcpHost
